import Mathlib

/-!
# PicoWave: a shallow embedding of `src/picowave.cpp` / `src/picowave.h`

This file embeds the PicoWave streaming audio engine (the `Detail` class of
`picowave.cpp`) as executable Lean definitions and proves properties of its
lifecycle operations.

Modelling conventions:
* OS / waveOut calls are external collaborators; their success or failure is
  supplied by an explicit oracle structure (`OsEnv` for the lifecycle calls,
  `WorkerEnv` for the worker-thread scan).
* Each operation returns `(result, new state, trace)`, where the trace lists
  the device / memory operations the C++ code performed, in order.  The
  `Event.submit` event carries the bytes handed to the device.
* Machine integers: the struct fields are `uint32_t`; `numSamples` is computed
  by a `uint32_t` multiplication (mod 2^32) and `numBytes` in `size_t`
  (mod 2^64), exactly as the C++ arithmetic conversions dictate.
* Pointers are modelled as offsets from the 16-byte-aligned base of the pool
  allocation; handles (`_hwo`, `_waveEvent`, `_waveThread`, `_rawAlloc`) as
  booleans recording whether the handle is currently non-null.
-/

/-- Error codes, in the order of the anonymous enum in `picowave.h`. -/
def PW_OK : Nat := 0

def PW_ALREADY_OPEN : Nat := 1

def PW_WAVEINFO_ERROR : Nat := 2

def PW_THREAD_ABORT : Nat := 3

def PW_WAVEOUTOPEN_ERROR : Nat := 4

def PW_CREATETHREAD_ERROR : Nat := 5

def PW_CREATEEVENT_ERROR : Nat := 6

def PW_WAVEOUTCLOSE_ERROR : Nat := 7

def PW_WAVEOUTWRITE_ERROR : Nat := 8

def PW_WAVEOUTPREPHDR_ERROR : Nat := 9

def PW_CLOSEHANDLE_ERROR : Nat := 10

/-- `struct WaveInfo` from `picowave.h`.  `callback` records whether the
`WaveProc` function pointer is non-null; the opaque `callbackData` pointer is
not observable and is omitted. -/
structure WaveInfo where
  sampleRate : Nat
  bitDepth : Nat
  channels : Nat
  bufferSize : Nat
  callback : Bool
deriving Repr, DecidableEq

/-- A `WAVEHDR` as set up by `Detail::_prepare`: `lpDataOff` is the offset of
`lpData` from the aligned base of the pool, `dwBufferLength` its byte count. -/
structure WaveHdr where
  lpDataOff : Nat
  dwBufferLength : Nat
deriving Repr, DecidableEq

/-- The fields of `struct Detail` (picowave.cpp lines 15-65).  Handles are
booleans: `true` means the corresponding pointer is currently non-null. -/
structure DetailState where
  hwo : Bool
  alive : Bool
  waveEvent : Bool
  waveThread : Bool
  rawAlloc : Bool
  wavehdr : List WaveHdr
  info : WaveInfo
  error : Nat
deriving Repr, DecidableEq

/-- The state established by the `Detail` constructor: every handle null,
headers and info zeroed, `_error = PW_OK`. -/
def detailInit : DetailState :=
  { hwo := false
    alive := false
    waveEvent := false
    waveThread := false
    rawAlloc := false
    wavehdr := List.replicate 4 ⟨0, 0⟩
    info := ⟨0, 0, 0, 0, false⟩
    error := PW_OK }

/-- Oracle for the OS / waveOut calls made by `open` and `close`.
`prepareOk i` / `writeOk i` give the result of `waveOutPrepareHeader` /
`waveOutWrite` for header `i` during priming; `threadStillActive` is whether
`GetExitCodeThread` reports `STILL_ACTIVE` after the bounded join. -/
structure OsEnv where
  createEventOk : Bool
  waveOutOpenOk : Bool
  createThreadOk : Bool
  prepareOk : Nat → Bool
  writeOk : Nat → Bool
  getExitCodeOk : Bool
  threadStillActive : Bool
  waveOutCloseOk : Bool
  closeHandleOk : Bool

/-- Oracle for one wake-up of the worker thread: `done i` is header `i`'s
`WHDR_DONE` flag, the `*Ok` fields give device-call results, and `fill i` is
the byte content of header `i` at resubmission time. -/
structure WorkerEnv where
  done : Nat → Bool
  unprepOk : Nat → Bool
  prepOk : Nat → Bool
  writeOk : Nat → Bool
  fill : Nat → List Nat

/-- Device and memory operations, in the order the C++ code performs them. -/
inductive Event where
  | createEvent
  | waveOutOpen
  | createThread
  | allocPool (numBytes : Nat)
  | prepHdr (i : Nat)
  | unprepHdr (i : Nat)
  | submit (i : Nat) (bytes : List Nat)
  | callback (i : Nat)
  | terminateThread
  | waveOutCloseEv
  | closeHandleEv
  | freePool
deriving Repr, DecidableEq

/-- `isPowerOfTwo` (picowave.cpp lines 75-78): `0 == (in & (in - 1))` with
`in : size_t`, so the subtraction wraps mod 2^64. -/
def isPowerOfTwo (n : Nat) : Bool :=
  (n &&& ((n + (2 ^ 64 - 1)) % 2 ^ 64)) == 0

/-- `Detail::_validate` (picowave.cpp lines 156-179), check for check:
power-of-two buffer size, non-null callback, the bit-depth test written
exactly as in the source (`!=` joined by `||`), the sample-rate switch, and
the channel-count test. -/
def _validate (info : WaveInfo) : Bool :=
  if !isPowerOfTwo info.bufferSize then false
  else if !info.callback then false
  else if info.bitDepth != 16 || info.bitDepth != 8 then false
  else if !(info.sampleRate == 44100 || info.sampleRate == 22050 ||
      info.sampleRate == 11025) then false
  else if info.channels != 1 && info.channels != 2 then false
  else true

/-- `numSamples = _info.bufferSize * _info.channels` (line 87): a `uint32_t`
multiplication, reduced mod 2^32 before widening to `size_t`. -/
def numSamplesOf (info : WaveInfo) : Nat :=
  info.bufferSize * info.channels % 2 ^ 32

/-- `numBytes = numSamples * _info.bitDepth / 8` (line 89): `size_t`
arithmetic, mod 2^64. -/
def numBytesOf (info : WaveInfo) : Nat :=
  numSamplesOf info * info.bitDepth % 2 ^ 64 / 8

/-- One iteration of the loop in `Detail::_prepare` (lines 98-117): set up
header `i` at offset `i * hdrSamples`, then `waveOutPrepareHeader` and
`waveOutWrite` it, recording the specific error on failure.  `pool` is the
byte content of the aligned usable region. -/
def prepStep (env : OsEnv) (pool : List Nat) (hdrSamples i : Nat)
    (s : DetailState) : Bool × DetailState × List Event :=
  let hdr : WaveHdr := ⟨i * hdrSamples, hdrSamples⟩
  let s' := { s with wavehdr := s.wavehdr.set i hdr }
  if env.prepareOk i then
    let bytes := (pool.drop (i * hdrSamples)).take hdrSamples
    if env.writeOk i then
      (true, s', [Event.prepHdr i, Event.submit i bytes])
    else
      (false, { s' with error := PW_WAVEOUTWRITE_ERROR },
        [Event.prepHdr i, Event.submit i bytes])
  else
    (false, { s' with error := PW_WAVEOUTPREPHDR_ERROR }, [Event.prepHdr i])

/-- `Detail::_prepare` (picowave.cpp lines 81-119): allocate the pool,
zero-fill the usable region (`memset(ptr, 0, numBytes)`), slice it into
`_wavehdr.size() = 4` headers of `numBytes / 4` bytes each, and prepare and
submit each header in order, stopping at the first failure.  The loop over
the fixed 4-element `std::array` is unrolled. -/
def _prepare (env : OsEnv) (s0 : DetailState) : Bool × DetailState × List Event :=
  let nB := numBytesOf s0.info
  let s := { s0 with rawAlloc := true }
  let pool := List.replicate nB 0
  let hS := nB / 4
  let ev0 := [Event.allocPool nB]
  match prepStep env pool hS 0 s with
  | (false, s1, e) => (false, s1, ev0 ++ e)
  | (true, s1, e1) =>
    match prepStep env pool hS 1 s1 with
    | (false, s2, e) => (false, s2, ev0 ++ e1 ++ e)
    | (true, s2, e2) =>
      match prepStep env pool hS 2 s2 with
      | (false, s3, e) => (false, s3, ev0 ++ e1 ++ e2 ++ e)
      | (true, s3, e3) =>
        match prepStep env pool hS 3 s3 with
        | (false, s4, e) => (false, s4, ev0 ++ e1 ++ e2 ++ e3 ++ e)
        | (true, s4, e4) => (true, s4, ev0 ++ e1 ++ e2 ++ e3 ++ e4)

/-- `Detail::open` (picowave.cpp lines 181-233).  Note the rejection branch is
`if (_validate(info))` — the config is rejected when `_validate` returns
`true`, exactly as in the source. -/
def open' (env : OsEnv) (s : DetailState) (info : WaveInfo) :
    Bool × DetailState × List Event :=
  if s.hwo || s.waveThread || s.waveEvent then
    (false, { s with error := PW_ALREADY_OPEN }, [])
  else if _validate info then
    (false, { s with error := PW_WAVEINFO_ERROR }, [])
  else
    let s := { s with alive := true, info := info }
    if env.createEventOk then
      let s := { s with waveEvent := true }
      if env.waveOutOpenOk then
        let s := { s with hwo := true }
        if env.createThreadOk then
          let s := { s with waveThread := true }
          match _prepare env s with
          | (ok, s', evs) =>
            (ok, s', [Event.createEvent, Event.waveOutOpen, Event.createThread] ++ evs)
        else
          (false, { s with error := PW_CREATETHREAD_ERROR },
            [Event.createEvent, Event.waveOutOpen, Event.createThread])
      else
        (false, { s with error := PW_WAVEOUTOPEN_ERROR },
          [Event.createEvent, Event.waveOutOpen])
    else
      (false, { s with error := PW_CREATEEVENT_ERROR }, [Event.createEvent])

/-- The tail of `Detail::close` after the `waveOutClose` block (lines
267-279): close the event handle (recording but not returning on failure),
zero the header array and the stored info, and `delete[]` the raw allocation
if its pointer is non-null.  Faithful to the source, `_rawAlloc` is NOT set
back to null after the `delete[]`. -/
def closeTail (env : OsEnv) (s : DetailState) (evs : List Event) :
    Bool × DetailState × List Event :=
  let (s, evs) :=
    if s.waveEvent then
      let s' := if env.closeHandleOk then s else { s with error := PW_CLOSEHANDLE_ERROR }
      ({ s' with waveEvent := false }, evs ++ [Event.closeHandleEv])
    else (s, evs)
  let s := { s with wavehdr := List.replicate 4 ⟨0, 0⟩, info := ⟨0, 0, 0, 0, false⟩ }
  if s.rawAlloc then
    (true, s, evs ++ [Event.freePool])
  else
    (true, s, evs)

/-- `Detail::close` (picowave.cpp lines 235-280): clear the liveness flag,
bounded-join the worker (escalating to `TerminateThread` with
`PW_THREAD_ABORT` unless `GetExitCodeThread` succeeds with an exit code other
than `STILL_ACTIVE`), then `waveOutClose` (returning `false` immediately on
failure), then the tail. -/
def close (env : OsEnv) (s : DetailState) : Bool × DetailState × List Event :=
  let s := { s with alive := false }
  let (s, evs) :=
    if s.waveThread then
      let hardKill := !(env.getExitCodeOk && !env.threadStillActive)
      let (s, evs) :=
        if hardKill then
          ({ s with error := PW_THREAD_ABORT }, [Event.terminateThread])
        else (s, ([] : List Event))
      ({ s with waveThread := false }, evs)
    else (s, [])
  if s.hwo then
    if env.waveOutCloseOk then
      closeTail env { s with hwo := false } (evs ++ [Event.waveOutCloseEv])
    else
      (false, { s with error := PW_WAVEOUTCLOSE_ERROR }, evs ++ [Event.waveOutCloseEv])
  else
    closeTail env s evs

/-- One header's processing inside the worker's scan (picowave.cpp lines
131-151): skip unless `WHDR_DONE`; `waveOutUnprepareHeader`, the render
callback when non-null, `waveOutPrepareHeader`, `waveOutWrite`; any failing
device call makes the thread `return 1` at once. -/
def wStep (env : WorkerEnv) (cb : Bool) (i : Nat) : Option Nat × List Event :=
  if env.done i then
    if env.unprepOk i then
      let evs := [Event.unprepHdr i] ++ (if cb then [Event.callback i] else [])
      if env.prepOk i then
        if env.writeOk i then
          (none, evs ++ [Event.prepHdr i, Event.submit i (env.fill i)])
        else
          (some 1, evs ++ [Event.prepHdr i, Event.submit i (env.fill i)])
      else
        (some 1, evs ++ [Event.prepHdr i])
    else
      (some 1, [Event.unprepHdr i])
  else
    (none, [])

/-- One full scan of the four headers inside `Detail::_threadProc` (lines
131-151), i.e. the body run after one wake-up.  `some c` means the thread
function returned with exit code `c`; `none` means the scan completed and the
loop re-blocks.  The worker writes no field of `Detail` (in particular not
`_error`), so the state is returned unchanged. -/
def _threadProcScan (env : WorkerEnv) (s : DetailState) :
    Option Nat × List Event × DetailState :=
  let cb := s.info.callback
  match wStep env cb 0 with
  | (some c, e0) => (some c, e0, s)
  | (none, e0) =>
    match wStep env cb 1 with
    | (some c, e1) => (some c, e0 ++ e1, s)
    | (none, e1) =>
      match wStep env cb 2 with
      | (some c, e2) => (some c, e0 ++ e1 ++ e2, s)
      | (none, e2) =>
        match wStep env cb 3 with
        | (some c, e3) => (some c, e0 ++ e1 ++ e2 ++ e3, s)
        | (none, e3) => (none, e0 ++ e1 ++ e2 ++ e3, s)

/-- `true` iff the trace contains a resource-releasing operation
(`TerminateThread`, `waveOutClose`, `CloseHandle`, `waveOutUnprepareHeader`,
or freeing the pool). -/
def hasRelease (tr : List Event) : Bool :=
  tr.any fun e =>
    match e with
    | .terminateThread | .waveOutCloseEv | .closeHandleEv | .freePool
    | .unprepHdr _ => true
    | _ => false

/-- `_validate` rejects every input: the bit-depth test fires whenever
reached. -/
theorem validate_false (info : WaveInfo) : _validate info = false := by
  have hd : (info.bitDepth != 16 || info.bitDepth != 8) = true := by
    rcases eq_or_ne info.bitDepth 16 with h | h <;> simp [h]
  unfold _validate
  split
  · rfl
  · split
    · rfl
    · simp [hd]

/-- An all-success oracle with a cleanly-joining worker thread. -/
def envAllOk : OsEnv :=
  { createEventOk := true
    waveOutOpenOk := true
    createThreadOk := true
    prepareOk := fun _ => true
    writeOk := fun _ => true
    getExitCodeOk := true
    threadStillActive := false
    waveOutCloseOk := true
    closeHandleOk := true }

/-- A spec-valid configuration: 44100 Hz, 16-bit, stereo, 256-frame buffer. -/
def infoGood : WaveInfo := ⟨44100, 16, 2, 256, true⟩

/-- An invalid configuration: bufferSize 100 is not a power of two. -/
def info100 : WaveInfo := ⟨44100, 16, 2, 100, true⟩

/-- An invalid configuration: 3 channels. -/
def infoCh3 : WaveInfo := ⟨44100, 16, 3, 256, true⟩

/-- C4: the bit-depth test `bitDepth != 16 || bitDepth != 8` is a tautology,
so `_validate` returns `false` on every possible `WaveInfo` — no config is
ever accepted by `_validate`. -/
theorem validate_rejects_all (info : WaveInfo) :
    (info.bitDepth != 16 || info.bitDepth != 8) = true ∧ _validate info = false := by
  constructor
  · rcases eq_or_ne info.bitDepth 16 with h | h <;> simp [h]
  · exact validate_false info

/-- C9: `isPowerOfTwo 0 = true` (since `0 & (0-1) == 0` with wrapping
`size_t` subtraction), so a config with `bufferSize = 0` is never rejected by
the power-of-two guard `!isPowerOfTwo(info.bufferSize)` of `_validate`. -/
theorem isPowerOfTwo_zero_accepted :
    isPowerOfTwo 0 = true ∧
      ∀ info : WaveInfo, info.bufferSize = 0 →
        (!isPowerOfTwo info.bufferSize) = false := by
  refine ⟨by decide, ?_⟩
  intro info h
  rw [h]
  decide

/-- Closed witness for `isPowerOfTwo_zero_accepted` at a concrete config with
`bufferSize = 0`. -/
theorem isPowerOfTwo_zero_accepted_witness :
    (!isPowerOfTwo (WaveInfo.mk 44100 16 2 0 true).bufferSize) = false :=
  isPowerOfTwo_zero_accepted.2 ⟨44100, 16, 2, 0, true⟩ rfl

/-- C1: the code accepts invalid configs.  Because `open` rejects only when
`_validate` returns `true` and `_validate` always returns `false`, `open`
with bufferSize = 100 (not a power of two) or with channels = 3 proceeds:
it returns `true`, leaves `lastError = PW_OK`, and opens the device —
contradicting the claimed rejection with `PW_WAVEINFO_ERROR`. -/
theorem open_accepts_invalid_config :
    (open' envAllOk detailInit info100).1 = true ∧
      (open' envAllOk detailInit info100).2.1.error = PW_OK ∧
      (open' envAllOk detailInit info100).2.1.hwo = true ∧
      (open' envAllOk detailInit infoCh3).1 = true ∧
      (open' envAllOk detailInit infoCh3).2.1.error = PW_OK := by
  decide

/-- C2: double free on the second `close`.  After a successful `open`, the
first `close` succeeds and frees the pool; but since `close` never nulls
`_rawAlloc`, the second `close` also returns `true` and performs the
`delete[]` again — its trace is exactly `[Event.freePool]`, an additional
memory operation on an already-freed pointer. -/
theorem close_twice_double_free :
    (open' envAllOk detailInit infoGood).1 = true ∧
      (close envAllOk (open' envAllOk detailInit infoGood).2.1).1 = true ∧
      Event.freePool ∈ (close envAllOk (open' envAllOk detailInit infoGood).2.1).2.2 ∧
      (close envAllOk
        (close envAllOk (open' envAllOk detailInit infoGood).2.1).2.1).1 = true ∧
      (close envAllOk
        (close envAllOk (open' envAllOk detailInit infoGood).2.1).2.1).2.2 =
        [Event.freePool] := by
  decide

/-- Oracle where `CreateThread` fails and everything else succeeds. -/
def envThreadFail : OsEnv :=
  { createEventOk := true
    waveOutOpenOk := true
    createThreadOk := false
    prepareOk := fun _ => true
    writeOk := fun _ => true
    getExitCodeOk := true
    threadStillActive := false
    waveOutCloseOk := true
    closeHandleOk := true }

/-- C3 counterexample: when `CreateThread` fails, `open` returns `false` with
`PW_CREATETHREAD_ERROR`, but the already-created event handle and the
already-opened device are still held after it returns (`waveEvent = true`,
`hwo = true`) and its trace contains no releasing operation — the claimed
release-before-return does not happen. -/
theorem open_thread_fail_leaks :
    (open' envThreadFail detailInit infoGood).1 = false ∧
      (open' envThreadFail detailInit infoGood).2.1.error = PW_CREATETHREAD_ERROR ∧
      (open' envThreadFail detailInit infoGood).2.1.waveEvent = true ∧
      (open' envThreadFail detailInit infoGood).2.1.hwo = true ∧
      hasRelease (open' envThreadFail detailInit infoGood).2.2 = false := by
  decide

/-- C3 amended: every failure point of `open` (event creation, device open,
thread creation, first buffer prepare, first buffer write) records its
specific error code and returns `false`, but releases none of the resources
acquired before the failing step: the event handle, device handle, worker
thread and pool allocation stay held and the trace contains no releasing
operation. -/
theorem open_failures_record_and_retain (env : OsEnv) (info : WaveInfo) :
    (env.createEventOk = false →
      (open' env detailInit info).1 = false ∧
        (open' env detailInit info).2.1.error = PW_CREATEEVENT_ERROR ∧
        hasRelease (open' env detailInit info).2.2 = false) ∧
    (env.createEventOk = true → env.waveOutOpenOk = false →
      (open' env detailInit info).1 = false ∧
        (open' env detailInit info).2.1.error = PW_WAVEOUTOPEN_ERROR ∧
        (open' env detailInit info).2.1.waveEvent = true ∧
        hasRelease (open' env detailInit info).2.2 = false) ∧
    (env.createEventOk = true → env.waveOutOpenOk = true →
        env.createThreadOk = false →
      (open' env detailInit info).1 = false ∧
        (open' env detailInit info).2.1.error = PW_CREATETHREAD_ERROR ∧
        (open' env detailInit info).2.1.waveEvent = true ∧
        (open' env detailInit info).2.1.hwo = true ∧
        hasRelease (open' env detailInit info).2.2 = false) ∧
    (env.createEventOk = true → env.waveOutOpenOk = true →
        env.createThreadOk = true → env.prepareOk 0 = false →
      (open' env detailInit info).1 = false ∧
        (open' env detailInit info).2.1.error = PW_WAVEOUTPREPHDR_ERROR ∧
        (open' env detailInit info).2.1.waveEvent = true ∧
        (open' env detailInit info).2.1.hwo = true ∧
        (open' env detailInit info).2.1.waveThread = true ∧
        (open' env detailInit info).2.1.rawAlloc = true ∧
        hasRelease (open' env detailInit info).2.2 = false) ∧
    (env.createEventOk = true → env.waveOutOpenOk = true →
        env.createThreadOk = true → env.prepareOk 0 = true →
        env.writeOk 0 = false →
      (open' env detailInit info).1 = false ∧
        (open' env detailInit info).2.1.error = PW_WAVEOUTWRITE_ERROR ∧
        (open' env detailInit info).2.1.waveEvent = true ∧
        (open' env detailInit info).2.1.hwo = true ∧
        (open' env detailInit info).2.1.waveThread = true ∧
        (open' env detailInit info).2.1.rawAlloc = true ∧
        hasRelease (open' env detailInit info).2.2 = false) := by
  have hv := validate_false info
  refine ⟨?_, ?_, ?_, ?_, ?_⟩ <;> intros <;>
    simp_all [open', _prepare, prepStep, hasRelease, detailInit, hv]

/-- Closed witness for `open_failures_record_and_retain`: the
`CreateEvent`-failure conjunct applied at a concrete oracle and config. -/
theorem open_failures_record_and_retain_witness :
    (open' { envAllOk with createEventOk := false } detailInit infoGood).1 = false ∧
      (open' { envAllOk with createEventOk := false } detailInit infoGood).2.1.error
        = PW_CREATEEVENT_ERROR ∧
      hasRelease
        (open' { envAllOk with createEventOk := false } detailInit infoGood).2.2
        = false :=
  (open_failures_record_and_retain { envAllOk with createEventOk := false }
    infoGood).1 rfl

/-- Worker oracle: header 0 is Done, its `waveOutUnprepareHeader` fails. -/
def wenvUnprepFail : WorkerEnv :=
  { done := fun i => i == 0
    unprepOk := fun _ => false
    prepOk := fun _ => true
    writeOk := fun _ => true
    fill := fun _ => [] }

/-- A state as after a successful `open` of `infoGood` (handles held,
headers sliced, `lastError = PW_OK`). -/
def stateOpened : DetailState :=
  { hwo := true
    alive := true
    waveEvent := true
    waveThread := true
    rawAlloc := true
    wavehdr := [⟨0, 256⟩, ⟨256, 256⟩, ⟨512, 256⟩, ⟨768, 256⟩]
    info := infoGood
    error := PW_OK }

/-- C5 counterexample: when `waveOutUnprepareHeader` fails on the first Done
header, the worker does exit at once (thread exit code 1, no later header
touched) — but nothing is recorded: the `Detail` state, and in particular
`_error` read by `lastError`, is unchanged at `PW_OK`, so no later lifecycle
call can observe the failure through `lastError`. -/
theorem worker_fail_not_recorded :
    _threadProcScan wenvUnprepFail stateOpened =
        (some 1, [Event.unprepHdr 0], stateOpened) ∧
      stateOpened.error = PW_OK := by
  decide

/-- C5 amended: a device-call failure (unprepare, prepare, or write) at the
first Done header `j` makes the worker return exit code 1 immediately — the
trace stops at the failing call and no further header is processed — and the
engine state (including `_error`) is returned unchanged: the failure is not
recorded in `lastError`. -/
theorem worker_fail_aborts_unrecorded (env : WorkerEnv) (s : DetailState)
    (j : Nat) (hj : j < 4) (hprev : ∀ k, k < j → env.done k = false)
    (hd : env.done j = true) :
    (env.unprepOk j = false →
      _threadProcScan env s = (some 1, [Event.unprepHdr j], s)) ∧
    (env.unprepOk j = true → env.prepOk j = false →
      _threadProcScan env s =
        (some 1,
          [Event.unprepHdr j] ++
            (if s.info.callback then [Event.callback j] else []) ++
            [Event.prepHdr j], s)) ∧
    (env.unprepOk j = true → env.prepOk j = true → env.writeOk j = false →
      _threadProcScan env s =
        (some 1,
          [Event.unprepHdr j] ++
            (if s.info.callback then [Event.callback j] else []) ++
            [Event.prepHdr j, Event.submit j (env.fill j)], s)) := by
  interval_cases j
  · refine ⟨?_, ?_, ?_⟩ <;> intros <;>
      simp_all [_threadProcScan, wStep]
  · have h0 := hprev 0 (by omega)
    refine ⟨?_, ?_, ?_⟩ <;> intros <;>
      simp_all [_threadProcScan, wStep]
  · have h0 := hprev 0 (by omega)
    have h1 := hprev 1 (by omega)
    refine ⟨?_, ?_, ?_⟩ <;> intros <;>
      simp_all [_threadProcScan, wStep]
  · have h0 := hprev 0 (by omega)
    have h1 := hprev 1 (by omega)
    have h2 := hprev 2 (by omega)
    refine ⟨?_, ?_, ?_⟩ <;> intros <;>
      simp_all [_threadProcScan, wStep]

/-- Closed witness for `worker_fail_aborts_unrecorded` at header 0 with a
failing unprepare call. -/
theorem worker_fail_aborts_unrecorded_witness :
    _threadProcScan wenvUnprepFail stateOpened =
      (some 1, [Event.unprepHdr 0], stateOpened) :=
  (worker_fail_aborts_unrecorded wenvUnprepFail stateOpened 0 (by decide)
    (fun k hk => absurd hk (by omega)) rfl).1 rfl

/-- C6: if the worker has not exited when the bounded 1000 ms join elapses
(`GetExitCodeThread` reports `STILL_ACTIVE`), `close` records
`PW_THREAD_ABORT`, forcibly terminates the worker (`Event.terminateThread`
in the trace), clears the thread handle, and still completes — returning
`true` when the remaining device/handle teardown succeeds. -/
theorem close_thread_abort (env : OsEnv) (s : DetailState)
    (ht : s.waveThread = true) (ha : env.threadStillActive = true)
    (hc : env.waveOutCloseOk = true) (hh : env.closeHandleOk = true) :
    (close env s).1 = true ∧
      (close env s).2.1.error = PW_THREAD_ABORT ∧
      Event.terminateThread ∈ (close env s).2.2 ∧
      (close env s).2.1.waveThread = false := by
  simp only [close, closeTail, ht, ha, hc, hh]
  simp only [Bool.not_true, Bool.and_false, Bool.not_false, if_true]
  repeat' split
  all_goals simp_all

/-- Closed witness for `close_thread_abort`: a hung worker on a fully-opened
session. -/
theorem close_thread_abort_witness :
    (close { envAllOk with threadStillActive := true } stateOpened).1 = true ∧
      (close { envAllOk with threadStillActive := true } stateOpened).2.1.error
        = PW_THREAD_ABORT ∧
      Event.terminateThread ∈
        (close { envAllOk with threadStillActive := true } stateOpened).2.2 ∧
      (close { envAllOk with threadStillActive := true } stateOpened).2.1.waveThread
        = false :=
  close_thread_abort { envAllOk with threadStillActive := true } stateOpened
    rfl rfl rfl rfl

/-- C10: if `waveOutClose` fails during `close` (here with no worker thread
left), `close` sets `PW_WAVEOUTCLOSE_ERROR` and returns `false` immediately:
the device handle stays non-null and the event handle, header array, copied
config and pool allocation are all untouched — and a subsequent `close`
with a succeeding device retries and releases them. -/
theorem close_waveoutclose_failure (env env2 : OsEnv) (s : DetailState)
    (hwoT : s.hwo = true) (hth : s.waveThread = false)
    (hc : env.waveOutCloseOk = false)
    (h2c : env2.waveOutCloseOk = true) (h2h : env2.closeHandleOk = true) :
    (close env s).1 = false ∧
      (close env s).2.1.error = PW_WAVEOUTCLOSE_ERROR ∧
      (close env s).2.1.hwo = true ∧
      (close env s).2.1.waveEvent = s.waveEvent ∧
      (close env s).2.1.rawAlloc = s.rawAlloc ∧
      (close env s).2.1.wavehdr = s.wavehdr ∧
      (close env s).2.1.info = s.info ∧
      (close env s).2.2 = [Event.waveOutCloseEv] ∧
      (close env2 (close env s).2.1).1 = true ∧
      (close env2 (close env s).2.1).2.1.hwo = false ∧
      (close env2 (close env s).2.1).2.1.waveEvent = false := by
  simp only [close, closeTail, hwoT, hth, hc, h2c, h2h]
  simp only [Bool.false_eq_true, if_false, if_true]
  repeat' split
  all_goals simp_all

/-- Closed witness for `close_waveoutclose_failure`: an opened session whose
worker already went away, a failing then a succeeding `waveOutClose`. -/
theorem close_waveoutclose_failure_witness :
    (close { envAllOk with waveOutCloseOk := false }
        { stateOpened with waveThread := false }).1 = false ∧
      (close { envAllOk with waveOutCloseOk := false }
        { stateOpened with waveThread := false }).2.1.error
        = PW_WAVEOUTCLOSE_ERROR ∧
      (close { envAllOk with waveOutCloseOk := false }
        { stateOpened with waveThread := false }).2.1.hwo = true ∧
      (close { envAllOk with waveOutCloseOk := false }
        { stateOpened with waveThread := false }).2.1.waveEvent
        = { stateOpened with waveThread := false }.waveEvent ∧
      (close { envAllOk with waveOutCloseOk := false }
        { stateOpened with waveThread := false }).2.1.rawAlloc
        = { stateOpened with waveThread := false }.rawAlloc ∧
      (close { envAllOk with waveOutCloseOk := false }
        { stateOpened with waveThread := false }).2.1.wavehdr
        = { stateOpened with waveThread := false }.wavehdr ∧
      (close { envAllOk with waveOutCloseOk := false }
        { stateOpened with waveThread := false }).2.1.info
        = { stateOpened with waveThread := false }.info ∧
      (close { envAllOk with waveOutCloseOk := false }
        { stateOpened with waveThread := false }).2.2 = [Event.waveOutCloseEv] ∧
      (close envAllOk
        (close { envAllOk with waveOutCloseOk := false }
          { stateOpened with waveThread := false }).2.1).1 = true ∧
      (close envAllOk
        (close { envAllOk with waveOutCloseOk := false }
          { stateOpened with waveThread := false }).2.1).2.1.hwo = false ∧
      (close envAllOk
        (close { envAllOk with waveOutCloseOk := false }
          { stateOpened with waveThread := false }).2.1).2.1.waveEvent = false :=
  close_waveoutclose_failure { envAllOk with waveOutCloseOk := false } envAllOk
    { stateOpened with waveThread := false } rfl rfl rfl rfl rfl

/-- Full evaluation of `open` from a fresh engine under an all-success
oracle: it returns `true`, holds every handle, slices the zero-filled pool
into 4 consecutive headers of `numBytes / 4` bytes, and its trace is the
creation calls followed by one prepare and one submit per header. -/
theorem open_success_eval (env : OsEnv) (info : WaveInfo)
    (hce : env.createEventOk = true) (hwo2 : env.waveOutOpenOk = true)
    (hct : env.createThreadOk = true)
    (hp : ∀ i, env.prepareOk i = true) (hw : ∀ i, env.writeOk i = true) :
    open' env detailInit info =
      (true,
        { hwo := true, alive := true, waveEvent := true, waveThread := true,
          rawAlloc := true,
          wavehdr := [⟨0, numBytesOf info / 4⟩,
            ⟨numBytesOf info / 4, numBytesOf info / 4⟩,
            ⟨2 * (numBytesOf info / 4), numBytesOf info / 4⟩,
            ⟨3 * (numBytesOf info / 4), numBytesOf info / 4⟩],
          info := info, error := PW_OK },
        [Event.createEvent, Event.waveOutOpen, Event.createThread,
          Event.allocPool (numBytesOf info),
          Event.prepHdr 0,
          Event.submit 0
            ((List.replicate (numBytesOf info) 0).take (numBytesOf info / 4)),
          Event.prepHdr 1,
          Event.submit 1
            (((List.replicate (numBytesOf info) 0).drop (numBytesOf info / 4)).take
              (numBytesOf info / 4)),
          Event.prepHdr 2,
          Event.submit 2
            (((List.replicate (numBytesOf info) 0).drop
              (2 * (numBytesOf info / 4))).take (numBytesOf info / 4)),
          Event.prepHdr 3,
          Event.submit 3
            (((List.replicate (numBytesOf info) 0).drop
              (3 * (numBytesOf info / 4))).take (numBytesOf info / 4))]) := by
  have hv := validate_false info
  have hp0 := hp 0
  have hp1 := hp 1
  have hp2 := hp 2
  have hp3 := hp 3
  have hw0 := hw 0
  have hw1 := hw 1
  have hw2 := hw 2
  have hw3 := hw 3
  simp [open', _prepare, prepStep, detailInit, hv, hce, hwo2, hct,
    hp0, hp1, hp2, hp3, hw0, hw1, hw2, hw3]

/-- C7: after a successful `open`, the 4 headers are consecutive
non-overlapping slices of the one pool allocation, in order, each of byte
length `(bufferSize * channels * bitDepth/8) / 4`. -/
theorem open_buffer_layout (env : OsEnv) (info : WaveInfo)
    (hce : env.createEventOk = true) (hwo2 : env.waveOutOpenOk = true)
    (hct : env.createThreadOk = true)
    (hp : ∀ i, env.prepareOk i = true) (hw : ∀ i, env.writeOk i = true)
    (hbd : info.bitDepth = 8 ∨ info.bitDepth = 16)
    (hb1 : info.bufferSize * info.channels < 2 ^ 32) :
    (open' env detailInit info).1 = true ∧
      (open' env detailInit info).2.1.wavehdr =
        [⟨0, info.bufferSize * info.channels * (info.bitDepth / 8) / 4⟩,
         ⟨info.bufferSize * info.channels * (info.bitDepth / 8) / 4,
          info.bufferSize * info.channels * (info.bitDepth / 8) / 4⟩,
         ⟨2 * (info.bufferSize * info.channels * (info.bitDepth / 8) / 4),
          info.bufferSize * info.channels * (info.bitDepth / 8) / 4⟩,
         ⟨3 * (info.bufferSize * info.channels * (info.bitDepth / 8) / 4),
          info.bufferSize * info.channels * (info.bitDepth / 8) / 4⟩] := by
  have key : numBytesOf info / 4 =
      info.bufferSize * info.channels * (info.bitDepth / 8) / 4 := by
    rcases hbd with h | h <;> simp only [numBytesOf, numSamplesOf, h] <;> omega
  rw [open_success_eval env info hce hwo2 hct hp hw]
  exact ⟨rfl, by rw [key]⟩

/-- Closed witness for `open_buffer_layout`: bufferSize 256, stereo, 16-bit
gives four 256-byte buffers at offsets 0, 256, 512, 768. -/
theorem open_buffer_layout_witness :
    (open' envAllOk detailInit infoGood).1 = true ∧
      (open' envAllOk detailInit infoGood).2.1.wavehdr =
        [⟨0, 256⟩, ⟨256, 256⟩, ⟨512, 256⟩, ⟨768, 256⟩] :=
  open_buffer_layout envAllOk infoGood rfl rfl rfl (fun _ => rfl) (fun _ => rfl)
    (Or.inr rfl) (by decide)

/-- C8: priming during `open` prepares and submits each of the 4 buffers
exactly once — the trace is exactly one `prepHdr` and one `submit` per
header, in order — never invokes the render callback, and every byte handed
to the device is zero (the pool is zero-filled before submission). -/
theorem open_priming_zero (env : OsEnv) (info : WaveInfo)
    (hce : env.createEventOk = true) (hwo2 : env.waveOutOpenOk = true)
    (hct : env.createThreadOk = true)
    (hp : ∀ i, env.prepareOk i = true) (hw : ∀ i, env.writeOk i = true) :
    (open' env detailInit info).1 = true ∧
      (∃ z0 z1 z2 z3,
        (open' env detailInit info).2.2 =
          [Event.createEvent, Event.waveOutOpen, Event.createThread,
            Event.allocPool (numBytesOf info),
            Event.prepHdr 0, Event.submit 0 z0,
            Event.prepHdr 1, Event.submit 1 z1,
            Event.prepHdr 2, Event.submit 2 z2,
            Event.prepHdr 3, Event.submit 3 z3] ∧
          (∀ b ∈ z0, b = 0) ∧ (∀ b ∈ z1, b = 0) ∧
          (∀ b ∈ z2, b = 0) ∧ (∀ b ∈ z3, b = 0)) ∧
      ∀ i, Event.callback i ∉ (open' env detailInit info).2.2 := by
  rw [open_success_eval env info hce hwo2 hct hp hw]
  refine ⟨rfl, ⟨_, _, _, _, rfl, ?_, ?_, ?_, ?_⟩, ?_⟩
  · intro b hb
    exact List.eq_of_mem_replicate (List.mem_of_mem_take hb)
  · intro b hb
    exact List.eq_of_mem_replicate (List.mem_of_mem_drop (List.mem_of_mem_take hb))
  · intro b hb
    exact List.eq_of_mem_replicate (List.mem_of_mem_drop (List.mem_of_mem_take hb))
  · intro b hb
    exact List.eq_of_mem_replicate (List.mem_of_mem_drop (List.mem_of_mem_take hb))
  · intro i h
    simp at h

/-- Closed witness for `open_priming_zero` at the 256-frame stereo 16-bit
config. -/
theorem open_priming_zero_witness :
    (open' envAllOk detailInit infoGood).1 = true ∧
      (∃ z0 z1 z2 z3,
        (open' envAllOk detailInit infoGood).2.2 =
          [Event.createEvent, Event.waveOutOpen, Event.createThread,
            Event.allocPool (numBytesOf infoGood),
            Event.prepHdr 0, Event.submit 0 z0,
            Event.prepHdr 1, Event.submit 1 z1,
            Event.prepHdr 2, Event.submit 2 z2,
            Event.prepHdr 3, Event.submit 3 z3] ∧
          (∀ b ∈ z0, b = 0) ∧ (∀ b ∈ z1, b = 0) ∧
          (∀ b ∈ z2, b = 0) ∧ (∀ b ∈ z3, b = 0)) ∧
      ∀ i, Event.callback i ∉ (open' envAllOk detailInit infoGood).2.2 :=
  open_priming_zero envAllOk infoGood rfl rfl rfl (fun _ => rfl) (fun _ => rfl)
